import Mathlib

/-!
Verification development for the ShortShift Agent upload pipeline.

The repository consists of a Next.js API route (`POST /api/upload`, validated with a
zod schema and forwarded to an upload submitter) and a client page
(`src/app/page.tsx`) with a hashtag suggester, a publish-time resolver, local
pre-submit checks, a launch queue, and response handling.  The definitions below are
a shallow embedding of that code: JavaScript strings become `String`, `FormData`
entries become `Option FormVal` (`null` is `none`), fallible parsing returns
`Option`/`Except`, and the remote upload call is abstracted as a `ProviderOutcome`
input.  One zod subtlety is modelled explicitly: the handler feeds raw
`formData.get` results (which are `null` for missing fields) into the schema, and
`z.string().optional()` admits only `undefined`, so every missing field — the
optional ones included — fails its inner string check with
"Expected string, received null"; only `privacyStatus` tolerates absence, because
the handler substitutes `"private"` for `null` before validation.  `new Date(...)` is modelled by `jsParseDate`, a parser for the
`YYYY-MM-DDTHH:MM:SS` shape of date-time string that this application constructs and
exchanges; strings outside that shape (which the JavaScript runtime also treats as
invalid dates for the inputs exercised here) parse to `none`, and the final
`toISOString` rendering is modelled as the identity on the parsed wall-clock
instant, since no code in the repository compares the rendered text.
-/

/-- A wall-clock instant as produced by the date parser (local time of the session;
the code never converts between zones except in the modelled-away ISO rendering). -/
structure DateTime where
  year : Nat
  month : Nat
  day : Nat
  hour : Nat
  minute : Nat
  second : Nat
deriving DecidableEq, Repr

/-- Gregorian leap-year rule, as used by the JavaScript `Date` object. -/
def isLeap (y : Nat) : Bool :=
  (y % 4 == 0 && y % 100 != 0) || y % 400 == 0

/-- Days in a month, as validated by the JavaScript `Date` object for ISO strings. -/
def daysInMonth (y m : Nat) : Nat :=
  if m = 2 then (if isLeap y then 29 else 28)
  else if m = 4 ∨ m = 6 ∨ m = 9 ∨ m = 11 then 30
  else 31

/-- Value of one ASCII decimal digit. -/
def digitVal (c : Char) : Option Nat :=
  if c.isDigit then some (c.toNat - 48) else none

/-- Two-digit decimal field of a date-time string. -/
def twoDigits (a b : Char) : Option Nat :=
  match digitVal a, digitVal b with
  | some x, some y => some (10 * x + y)
  | _, _ => none

/-- Four-digit decimal field of a date-time string. -/
def fourDigits (a b c d : Char) : Option Nat :=
  match twoDigits a b, twoDigits c d with
  | some x, some y => some (100 * x + y)
  | _, _ => none

/-- The `HH:MM:SS` tail of a date-time string. -/
def parseTimeChars : List Char → Option (Nat × Nat × Nat)
  | [h1, h2, ':', m1, m2, ':', s1, s2] =>
    match twoDigits h1 h2, twoDigits m1 m2, twoDigits s1 s2 with
    | some h, some mi, some se =>
      if h < 24 ∧ mi < 60 ∧ se < 60 then some (h, mi, se) else none
    | _, _, _ => none
  | _ => none

/-- The separators of a `YYYY-MM-DDTHH:MM:SS` string. -/
def sepOk (c1 c2 c3 : Char) : Bool :=
  c1 == '-' && c2 == '-' && c3 == 'T'

/-- Models `new Date(s)` restricted to the `YYYY-MM-DDTHH:MM:SS` shape constructed
and exchanged by this application (`buildPublishDate` and the ISO-rendered
`publishAt` field).  Any other string — e.g. `"not-a-date"` — yields `none`, the
embedding of a JavaScript Invalid Date. -/
def jsParseDate (s : String) : Option DateTime :=
  match s.data with
  | y1 :: y2 :: y3 :: y4 :: c1 :: m1 :: m2 :: c2 :: d1 :: d2 :: c3 :: rest =>
    match fourDigits y1 y2 y3 y4, twoDigits m1 m2, twoDigits d1 d2 with
    | some y, some mo, some d =>
      if sepOk c1 c2 c3 then
        if 1 ≤ mo ∧ mo ≤ 12 ∧ 1 ≤ d ∧ d ≤ daysInMonth y mo then
          match parseTimeChars rest with
          | some (h, mi, se) => some ⟨y, mo, d, h, mi, se⟩
          | none => none
        else none
      else none
    | _, _, _ => none
  | _ => none

/-- Models `safeToISOString` (page.tsx lines 38-41): an invalid date (already `none`
from `jsParseDate`) stays absent; the ISO rendering of a valid date is modelled as
the identity on the parsed instant. -/
def safeToISOString (d : Option DateTime) : Option DateTime := d

/-- Models `buildPublishDate` (page.tsx lines 43-48): empty date means no schedule,
an empty time falls back to `"09:00"`, and the pair is parsed as
`date ++ "T" ++ time ++ ":00"`. -/
def buildPublishDate (date time : String) : Option DateTime :=
  if date = "" then none
  else
    let fallbackTime := if time = "" then "09:00" else time
    safeToISOString (jsParseDate (date ++ "T" ++ fallbackTime ++ ":00"))

example : buildPublishDate "2024-05-01" "" = some ⟨2024, 5, 1, 9, 0, 0⟩ := by decide
example : buildPublishDate "2024-05-01" "18:30" = some ⟨2024, 5, 1, 18, 30, 0⟩ := by decide
example : jsParseDate "not-a-date" = none := by decide

/-- ASCII lower-case letter or digit, the character class `[a-z0-9]`. -/
def isLowerDigit (c : Char) : Bool :=
  ('a' ≤ c && c ≤ 'z') || ('0' ≤ c && c ≤ '9')

/-- Models `String.prototype.toLowerCase()` for the ASCII text exercised here. -/
def jsToLower (s : String) : String :=
  String.mk (s.data.map Char.toLower)

/-- Splitting a character list at every whitespace character. -/
def splitAtWs : List Char → List Char → List String
  | [], acc => [String.mk acc.reverse]
  | c :: cs, acc =>
    if c.isWhitespace then String.mk acc.reverse :: splitAtWs cs []
    else splitAtWs cs (c :: acc)

/-- Models `String.prototype.split(/\s+/)` (page.tsx lines 53 and 63).  JavaScript
may additionally yield one empty leading and one empty trailing field, which every
caller of this split immediately filters out (`startsWith "#"` resp. `length > 3`);
those empties are dropped here directly. -/
def splitWsRuns (s : String) : List String :=
  (splitAtWs s.data []).filter (fun t => t != "")

/-- Models `String.prototype.startsWith` for a one-character argument. -/
def startsWithChar (s : String) (c : Char) : Bool :=
  match s.data with
  | [] => false
  | d :: _ => d == c

/-- Models `replace(/[^a-z0-9\s]/g, " ")` (page.tsx line 62). -/
def stripToSpace (s : String) : String :=
  String.mk (s.data.map fun c => if isLowerDigit c || c.isWhitespace then c else ' ')

/-- Models `replace(/[^a-z0-9]/g, "")` (page.tsx line 75). -/
def keepAlnum (s : String) : String :=
  String.mk (s.data.filter isLowerDigit)

/-- Models `replace(/[^a-z0-9_]/g, "")` (page.tsx line 55).  Note that this class
does not contain `#`, so a leading `#` is removed. -/
def keepWordChars (s : String) : String :=
  String.mk (s.data.filter fun c => isLowerDigit c || c == '_')

/-- The stopword set `COMMON_SKIP` (page.tsx lines 20-32). -/
def COMMON_SKIP : List String :=
  ["the", "and", "with", "your", "that", "this", "from", "about", "shorts", "video",
    "youtube"]

/-- Models `extractHashtags` (page.tsx lines 50-57): lowercase, split on whitespace,
keep tokens starting with `#`, sanitize each to `[a-z0-9_]`, drop empties. -/
def extractHashtags (input : String) : List String :=
  (((splitWsRuns (jsToLower input)).filter (fun t => startsWithChar t '#')).map
    keepWordChars).filter (fun t => t != "")

/-- One step of the frequency histogram (`Map.set` with an incremented count); the
JavaScript `Map` iterates in insertion order, so it is an association list here. -/
def bump (m : List (String × Nat)) (t : String) : List (String × Nat) :=
  if m.any (fun p => p.1 == t) then
    m.map (fun p => if p.1 == t then (p.1, p.2 + 1) else p)
  else m ++ [(t, 1)]

/-- The token-frequency histogram of `generateHashtags` (page.tsx lines 66-70). -/
def histogramOf (tokens : List String) : List (String × Nat) :=
  tokens.foldl bump []

/-- Stable insertion used to model `sort((a, b) => b[1] - a[1])`: an entry goes
after every already-placed entry with a greater-or-equal count, so equal counts
keep insertion order exactly as the (stable) JavaScript sort does. -/
def insertRanked (acc : List (String × Nat)) (p : String × Nat) :
    List (String × Nat) :=
  match acc with
  | [] => [p]
  | q :: rest => if p.2 ≤ q.2 then q :: insertRanked rest p else p :: q :: rest

/-- Stable descending sort by count (page.tsx line 73). -/
def sortByCountDesc (l : List (String × Nat)) : List (String × Nat) :=
  l.foldl insertRanked []

/-- The token stream of `generateHashtags` (page.tsx lines 60-64): concatenate the
three inputs, lowercase, strip punctuation to spaces, split, and keep tokens longer
than three characters that are not stopwords. -/
def hashtagTokens (title description tags : String) : List String :=
  (splitWsRuns (stripToSpace (jsToLower
      (title ++ " " ++ description ++ " " ++ tags)))).filter
    (fun w => decide (3 < w.length) && !(COMMON_SKIP.contains w))

/-- The five frequency-ranked suggestions, each prefixed with `#`
(page.tsx lines 72-75). -/
def rankedTags (title description tags : String) : List String :=
  ((sortByCountDesc (histogramOf (hashtagTokens title description tags))).take 5).map
    (fun p => "#" ++ keepAlnum p.1)

/-- One step of `new Set(...)` insertion: keep the first occurrence. -/
def dedupStep (acc : List String) (x : String) : List String :=
  if x ∈ acc then acc else acc ++ [x]

/-- Models `[...new Set(l)]` (page.tsx line 78): deduplicate preserving first
occurrence. -/
def dedupFirst (l : List String) : List String :=
  l.foldl dedupStep []

/-- Models `generateHashtags` (page.tsx lines 59-81): the up-to-three inline
description hashtags, then the up-to-five frequency-ranked ones, deduplicated and
truncated to eight. -/
def generateHashtags (title description tags : String) : List String :=
  (dedupFirst ((extractHashtags description).take 3 ++
    rankedTags title description tags)).take 8

example : generateHashtags "" "#hello" "" = ["hello", "#hello"] := by decide

/-- The base-36 digit characters used by `Number.prototype.toString(36)`. -/
def base36Char (n : Fin 36) : Char :=
  if n.val < 10 then Char.ofNat (48 + n.val) else Char.ofNat (87 + n.val)

/-- Models `randomId` (page.tsx lines 34-36), i.e.
`Math.random().toString(36).slice(2, 10)`.  A draw of `Math.random` is represented
by the base-36 fractional-digit expansion of the double it returns; `toString(36)`
renders `"0."` followed by those digits, and `slice(2, 10)` keeps the first eight.
Two calls of `Math.random` that return the same double yield the same id. -/
def randomId (draw : List (Fin 36)) : String :=
  String.mk ((draw.take 8).map base36Char)

example : randomId [18] = "i" := by decide

/-- A `File` entry of a multipart form: name, MIME type, and size in bytes. -/
structure FileData where
  name : String
  type : String
  size : Nat
deriving DecidableEq, Repr

/-- A non-null `FormData.get` result: a string or a `File`. -/
inductive FormVal where
  | str (s : String)
  | file (f : FileData)
deriving DecidableEq, Repr

/-- The multipart form read by the route handler; `none` is `FormData.get`
returning `null` for a missing field. -/
structure UploadForm where
  video : Option FormVal := none
  titleF : Option FormVal := none
  descriptionF : Option FormVal := none
  tagsF : Option FormVal := none
  privacyStatusF : Option FormVal := none
  publishAtF : Option FormVal := none
  madeForKidsF : Option FormVal := none
  notifySubscribersF : Option FormVal := none
  categoryIdF : Option FormVal := none
  defaultLanguageF : Option FormVal := none
deriving DecidableEq, Repr

/-- `MAX_FILE_SIZE_BYTES = 1024 * 1024 * 1024` (route handler line 9). -/
def MAX_FILE_SIZE_BYTES : Nat := 1024 * 1024 * 1024

/-- The issue list a single zod field check contributes. -/
def fieldIssue {α : Type} : Except String α → List String
  | .ok _ => []
  | .error m => [m]

/-- Models `z.string().min(5, "Title is required.")` applied to the raw
`formData.get("title")` value; the generic messages for non-string input follow
zod's invalid-type wording. -/
def checkTitle : Option FormVal → Except String String
  | some (.str s) => if 5 ≤ s.length then .ok s else .error "Title is required."
  | some (.file _) => .error "Expected string, received object"
  | none => .error "Expected string, received null"

/-- Models `z.string().min(10, "Description is required.")`. -/
def checkDescription : Option FormVal → Except String String
  | some (.str s) =>
    if 10 ≤ s.length then .ok s else .error "Description is required."
  | some (.file _) => .error "Expected string, received object"
  | none => .error "Expected string, received null"

/-- Splitting a character list at every comma, for `value.split(",")`. -/
def splitAtComma : List Char → List Char → List String
  | [], acc => [String.mk acc.reverse]
  | c :: cs, acc =>
    if c == ',' then String.mk acc.reverse :: splitAtComma cs []
    else splitAtComma cs (c :: acc)

/-- Models `String.prototype.trim()`. -/
def jsTrim (s : String) : String :=
  String.mk
    (((s.data.dropWhile Char.isWhitespace).reverse.dropWhile Char.isWhitespace).reverse)

/-- `value.split(",").map(tag => tag.trim()).filter(Boolean)` from the tags
transform. -/
def jsSplitTrim (s : String) : List String :=
  ((splitAtComma s.data []).map jsTrim).filter (fun t => t != "")

/-- Models the `tags` field, `z.string().optional()` with the comma-split
transform.  `FormData.get` yields `null` for a missing field, and zod's
`.optional()` admits only `undefined`, so `null` falls through to the inner
string check and fails; a present empty string transforms to the empty list. -/
def checkTags : Option FormVal → Except String (List String)
  | none => .error "Expected string, received null"
  | some (.str s) => .ok (if s = "" then [] else jsSplitTrim s)
  | some (.file _) => .error "Expected string, received object"

/-- Models `z.enum(["public", "private", "unlisted"])` applied to
`formData.get("privacyStatus") ?? "private"` — `??` replaces only `null`, before
validation, so this field alone tolerates a missing value.  The messages are
zod's: `invalid_enum_value` for a string outside the enum, `invalid_type` (with
the joined expected values) for a non-string. -/
def checkPrivacy (v : Option FormVal) : Except String String :=
  match v.getD (.str "private") with
  | .str s =>
    if s = "public" ∨ s = "private" ∨ s = "unlisted" then .ok s
    else
      .error ("Invalid enum value. Expected \x27public\x27 | \x27private\x27 | \x27unlisted\x27, received \x27"
        ++ s ++ "\x27")
  | .file _ =>
    .error "Expected \x27public\x27 | \x27private\x27 | \x27unlisted\x27, received object"

/-- Models the `publishAt` field, `z.string().optional()` with the date
transform: a missing field is `null`, which zod's `.optional()` does not admit,
so it fails the inner string check (hence an unscheduled client submission —
which omits the field — is rejected by this validator); a present empty string
is falsy and yields no schedule; a present non-empty string must parse
(`new Date(value)`, refined with `"Invalid publish date."`), and is rendered
back (identity in this model). -/
def checkPublishAt : Option FormVal → Except String (Option DateTime)
  | none => .error "Expected string, received null"
  | some (.str s) =>
    if s = "" then .ok none
    else
      match jsParseDate s with
      | some d => .ok (some d)
      | none => .error "Invalid publish date."
  | some (.file _) => .error "Expected string, received object"

/-- Models the `madeForKids` / `notifySubscribers` fields,
`z.string().optional()` transformed by `value === "true"`: a missing field is
`null` and fails the inner string check; a present string compares against
`"true"`. -/
def checkStringFlag : Option FormVal → Except String Bool
  | none => .error "Expected string, received null"
  | some (.str s) => .ok (s == "true")
  | some (.file _) => .error "Expected string, received object"

/-- Models `z.string().optional()` for `categoryId` / `defaultLanguage`: a
missing field is `null` and fails the inner string check. -/
def checkOptionalString : Option FormVal → Except String (Option String)
  | none => .error "Expected string, received null"
  | some (.str s) => .ok (some s)
  | some (.file _) => .error "Expected string, received object"

/-- The parsed payload, `payload.data` of a successful `formSchema.safeParse`. -/
structure Payload where
  title : String
  description : String
  tags : List String
  privacyStatus : String
  publishAt : Option DateTime
  madeForKids : Bool
  notifySubscribers : Bool
  categoryId : Option String
  defaultLanguage : Option String
deriving DecidableEq, Repr

/-- All issue messages of a `safeParse`, in the schema's key order. -/
def formIssues (form : UploadForm) : List String :=
  fieldIssue (checkTitle form.titleF) ++
  fieldIssue (checkDescription form.descriptionF) ++
  fieldIssue (checkTags form.tagsF) ++
  fieldIssue (checkPrivacy form.privacyStatusF) ++
  fieldIssue (checkPublishAt form.publishAtF) ++
  fieldIssue (checkStringFlag form.madeForKidsF) ++
  fieldIssue (checkStringFlag form.notifySubscribersF) ++
  fieldIssue (checkOptionalString form.categoryIdF) ++
  fieldIssue (checkOptionalString form.defaultLanguageF)

/-- Models `formSchema.safeParse` over the values the handler extracts from the
form: success iff every field check succeeds, failure carrying every issue. -/
def parseForm (form : UploadForm) : Except (List String) Payload :=
  match checkTitle form.titleF, checkDescription form.descriptionF,
      checkTags form.tagsF, checkPrivacy form.privacyStatusF,
      checkPublishAt form.publishAtF, checkStringFlag form.madeForKidsF,
      checkStringFlag form.notifySubscribersF,
      checkOptionalString form.categoryIdF,
      checkOptionalString form.defaultLanguageF with
  | .ok t, .ok de, .ok tg, .ok pv, .ok pa, .ok mfk, .ok nsb, .ok ci, .ok dl =>
    .ok ⟨t, de, tg, pv, pa, mfk, nsb, ci, dl⟩
  | _, _, _, _, _, _, _, _, _ => .error (formIssues form)

/-- The provider's normalized answer, `{videoId, url}`. -/
structure UploadResult where
  videoId : String
  url : String
deriving DecidableEq, Repr

/-- Outcome of the `uploadShort` call: a result, or a thrown error whose message
reaches the handler's catch block. -/
inductive ProviderOutcome where
  | ok (r : UploadResult)
  | err (message : String)
deriving DecidableEq, Repr

/-- A JSON response body with the fields this API ever sets; an absent field is
`none` (JavaScript `undefined`). -/
structure JsonBody where
  error : Option String := none
  videoId : Option String := none
  url : Option String := none
deriving DecidableEq, Repr

/-- An HTTP response of the route handler. -/
structure HttpResponse where
  status : Nat
  body : JsonBody
deriving DecidableEq, Repr

/-- The argument record the handler passes to `uploadShort` (route handler lines
88-93); the binary buffer itself is not modelled. -/
structure UploadCall where
  fileName : String
  mimeType : String
  payload : Payload
deriving DecidableEq, Repr

/-- `Array.prototype.join(" ")`, used on the issue messages. -/
def joinSpace : List String → String
  | [] => ""
  | [m] => m
  | m :: rest => m ++ " " ++ joinSpace rest

/-- The validation-and-upload stage of the handler, after the file pre-checks:
`safeParse`, then the `uploadShort` call with `mimeType = file.type || "video/mp4"`.
The second component records the upload call actually issued, if any. -/
def runUpload (form : UploadForm) (f : FileData) (prov : ProviderOutcome) :
    HttpResponse × Option UploadCall :=
  match parseForm form with
  | .error msgs => (⟨400, { error := some (joinSpace msgs) }⟩, none)
  | .ok p =>
    let call : UploadCall :=
      { fileName := f.name
        mimeType := if f.type = "" then "video/mp4" else f.type
        payload := p }
    match prov with
    | .ok r => (⟨201, { videoId := some r.videoId, url := some r.url }⟩, some call)
    | .err m => (⟨500, { error := some m }⟩, some call)

/-- Models the route handler `POST` (route handler lines 46-113): reject a missing
or non-file `video` field, then an oversized file, then run schema validation and
the upload; a provider failure surfaces as HTTP 500 through the catch block. -/
def POST (form : UploadForm) (prov : ProviderOutcome) :
    HttpResponse × Option UploadCall :=
  match form.video with
  | some (.file f) =>
    if f.size > MAX_FILE_SIZE_BYTES then
      (⟨400, { error := some "Video file is too large." }⟩, none)
    else runUpload form f prov
  | _ => (⟨400, { error := some "Video file is required." }⟩, none)

/-- Two-digit zero-padded decimal rendering. -/
def pad2 (n : Nat) : String :=
  if n < 10 then "0" ++ toString n else toString n

/-- The ISO text of a publish instant as sent on the wire by the client.  The real
code sends `Date.prototype.toISOString()` output; with the ISO rendering modelled
as the identity on the instant, this is its canonical `YYYY-MM-DDTHH:MM:SS`
re-rendering, which `jsParseDate` accepts back. -/
def toIsoText (d : DateTime) : String :=
  toString d.year ++ "-" ++ pad2 d.month ++ "-" ++ pad2 d.day ++ "T" ++
    pad2 d.hour ++ ":" ++ pad2 d.minute ++ ":" ++ pad2 d.second

/-- Queue entry status (page.tsx line 5). -/
inductive QueueStatus where
  | draft
  | ready
  | scheduled
  | uploaded
deriving DecidableEq, Repr

/-- A launch-queue entry (page.tsx lines 7-13). -/
structure QueueItem where
  id : String
  title : String
  publishAt : Option DateTime := none
  status : QueueStatus
  url : Option String := none
deriving DecidableEq, Repr

/-- The client page's state: the form fields, submission status, last error, last
result, and the launch queue, with the initial `useState` values as defaults
(the `NEXT_PUBLIC_DEFAULT_HASHTAGS` seed is unset, so `tagsInput` starts empty). -/
structure ClientState where
  file : Option FileData := none
  title : String := ""
  description : String := ""
  tagsInput : String := ""
  privacyStatus : String := "private"
  scheduleDate : String := ""
  scheduleTime : String := ""
  madeForKids : Bool := false
  notifySubscribers : Bool := false
  categoryId : String := "24"
  defaultLanguage : String := "en"
  uploading : Bool := false
  error : Option String := none
  result : Option JsonBody := none
  queue : List QueueItem := []
deriving DecidableEq, Repr

/-- Models `resetForm` (page.tsx lines 145-157). -/
def resetForm (st : ClientState) : ClientState :=
  { st with
    file := none
    title := ""
    description := ""
    tagsInput := ""
    privacyStatus := "private"
    scheduleDate := ""
    scheduleTime := ""
    madeForKids := false
    notifySubscribers := false
    categoryId := "24"
    defaultLanguage := "en" }

/-- The multipart payload `handleSubmit` assembles (page.tsx lines 177-189):
every field as a string, booleans via `String(b)`, and `publishAt` appended only
when the resolver produced a timestamp (serialized through the modelled ISO
rendering, i.e. the instant itself). -/
def assembleForm (st : ClientState) (f : FileData) : UploadForm :=
  { video := some (.file f)
    titleF := some (.str st.title)
    descriptionF := some (.str st.description)
    tagsF := some (.str st.tagsInput)
    privacyStatusF := some (.str st.privacyStatus)
    publishAtF := (buildPublishDate st.scheduleDate st.scheduleTime).map
      (fun d => .str (toIsoText d))
    madeForKidsF := some (.str (toString st.madeForKids))
    notifySubscribersF := some (.str (toString st.notifySubscribers))
    categoryIdF := some (.str st.categoryId)
    defaultLanguageF := some (.str st.defaultLanguage) }

/-- What `handleSubmit` decides before any network activity: a local rejection
with its message, or the POST it is about to issue. -/
inductive SubmitStep where
  | localReject (msg : String)
  | sendRequest (f : FileData) (form : UploadForm)
deriving DecidableEq, Repr

/-- The local pre-submit checks of `handleSubmit` (page.tsx lines 164-173), in
source order: first the attached-file check, then the schedule/privacy
consistency check. -/
def preSubmit (st : ClientState) : SubmitStep :=
  match st.file with
  | none => .localReject "Attach a Short before uploading."
  | some f =>
    if (buildPublishDate st.scheduleDate st.scheduleTime).isSome ∧
        st.privacyStatus = "public" then
      .localReject
        "Scheduled Shorts must use private or unlisted privacy until publish time."
    else .sendRequest f (assembleForm st f)

/-- The runtime-defined text of the `SyntaxError` thrown when
`response.json()` fails to parse; its exact wording is environment-specific and
never produced by this repository, so it is a fixed constant of the model. -/
def jsonParseErrorMessage : String := "Unexpected token in JSON"

/-- The user-facing message the client derives from a failed upload response
(page.tsx lines 196-216): `data.error` when the body parses and has one,
`"Upload failed."` when it parses without one, and the JSON parser's own error
message when the body is not JSON (`none` here) — the thrown value is an `Error`
in every case, so the `"Something went wrong."` fallback is unreachable. -/
def uploadFailureMessage (body : Option JsonBody) : String :=
  match body with
  | none => jsonParseErrorMessage
  | some b =>
    match b.error with
    | some e => e
    | none => "Upload failed."

/-- Models the response handling of `handleSubmit` (page.tsx lines 196-219) given
the state after `setError(null); setResult(null)` and the submitted title: on a
2xx response store the result, promote matching url-less queue entries, and reset
the form; otherwise record the failure message.  The responses of this API are
always well-formed JSON, hence the `some` body. -/
def processResponse (st0 : ClientState) (title : String) (resp : HttpResponse) :
    ClientState :=
  if 200 ≤ resp.status ∧ resp.status < 300 then
    resetForm
      { st0 with
        result := some resp.body
        queue := st0.queue.map (fun item =>
          if item.url = none ∧ title ≠ "" ∧ item.title = title then
            { item with status := QueueStatus.uploaded, url := resp.body.url }
          else item)
        uploading := false }
  else
    { st0 with
      error := some (uploadFailureMessage (some resp.body))
      uploading := false }

/-- Models `handleSubmit` (page.tsx lines 159-220) as one state transition, with
the provider's behaviour as an input: clear error/result, run the local checks,
and either stop at a local rejection or issue the POST and process its response. -/
def handleSubmit (st : ClientState) (prov : ProviderOutcome) : ClientState :=
  let st0 := { st with error := none, result := none }
  match preSubmit st with
  | .localReject m => { st0 with error := some m }
  | .sendRequest _ form => processResponse st0 st.title (POST form prov).1

/-- The inputs of one "Add to Launch Plan" click: the current title and schedule
fields, plus the `Math.random` draw backing `randomId`. -/
structure AddInput where
  title : String
  scheduleDate : String
  scheduleTime : String
  draw : List (Fin 36)
deriving DecidableEq, Repr

/-- Models `addToQueue` (page.tsx lines 126-137): append one entry with a fresh
random id, the title (falling back to `"Untitled Short"`), the resolved publish
time, and status `scheduled` or `draft`. -/
def addToQueue (queue : List QueueItem) (a : AddInput) : List QueueItem :=
  let publishAt := buildPublishDate a.scheduleDate a.scheduleTime
  queue ++
    [{ id := randomId a.draw
       title := if a.title = "" then "Untitled Short" else a.title
       publishAt := publishAt
       status := if publishAt.isSome then .scheduled else .draft
       url := none }]

/-- A session's sequence of "Add to Launch Plan" actions, starting from the empty
queue. -/
def runQueue (actions : List AddInput) : List QueueItem :=
  actions.foldl addToQueue []

/-- A well-formed sample file input. -/
def sampleFile : FileData :=
  { name := "short.mp4", type := "video/mp4", size := 1000 }

/-- A sample file whose browser-reported MIME type is empty. -/
def emptyTypeFile : FileData :=
  { name := "short.mp4", type := "", size := 1000 }

/-- A complete form (every field present) whose title (4 chars) and description
(9 chars) are the only rule violations. -/
def shortFieldsForm : UploadForm :=
  { video := some (.file sampleFile)
    titleF := some (.str "abcd")
    descriptionF := some (.str "too short")
    tagsF := some (.str "")
    privacyStatusF := some (.str "private")
    publishAtF := some (.str "")
    madeForKidsF := some (.str "false")
    notifySubscribersF := some (.str "false")
    categoryIdF := some (.str "24")
    defaultLanguageF := some (.str "en") }

/-- A complete form that is valid except for a malformed `publishAt`. -/
def notADateForm : UploadForm :=
  { video := some (.file sampleFile)
    titleF := some (.str "Launch day recap")
    descriptionF := some (.str "A description that is long enough.")
    tagsF := some (.str "")
    privacyStatusF := some (.str "private")
    publishAtF := some (.str "not-a-date")
    madeForKidsF := some (.str "false")
    notifySubscribersF := some (.str "false")
    categoryIdF := some (.str "24")
    defaultLanguageF := some (.str "en") }

/-- A file one byte over the 1 GiB limit. -/
def oversizedFile : FileData :=
  { name := "big.mp4", type := "video/mp4", size := 1024 * 1024 * 1024 + 1 }

/-- A file of exactly 1 GiB. -/
def exactLimitFile : FileData :=
  { name := "edge.mp4", type := "video/mp4", size := 1024 * 1024 * 1024 }

/-- A form carrying the oversized file. -/
def oversizedForm : UploadForm := { video := some (.file oversizedFile) }

/-- A form carrying the exactly-1-GiB file. -/
def exactLimitForm : UploadForm := { video := some (.file exactLimitFile) }

/-- A form whose `video` field arrived as a string instead of a file. -/
def strVideoForm : UploadForm := { video := some (.str "nope") }

/-- A client state ready to submit — scheduled (so the assembled form carries a
`publishAt` string and passes the validator) and private, with one matching
draft queue entry. -/
def sampleState : ClientState :=
  { file := some sampleFile
    title := "Launch day recap"
    description := "A description that is long enough."
    scheduleDate := "2024-05-01"
    scheduleTime := "18:30"
    queue := [{ id := "q1", title := "Launch day recap", status := .draft }] }

/-- The sample state with a malformed schedule date typed in. -/
def notADateState : ClientState :=
  { file := some sampleFile
    title := "Launch day recap"
    description := "A description that is long enough."
    scheduleDate := "not-a-date" }

/-- The sample state but with the empty-MIME-type file, again scheduled so the
assembled form passes the validator and the upload call is really issued. -/
def mimeState : ClientState :=
  { file := some emptyTypeFile
    title := "Launch day recap"
    description := "A description that is long enough."
    scheduleDate := "2024-05-01"
    scheduleTime := "18:30" }

/-- The form `mimeState` assembles. -/
def mimeForm : UploadForm := assembleForm mimeState emptyTypeFile

/-- The payload the validator extracts from `mimeForm`. -/
def mimePayload : Payload :=
  { title := "Launch day recap"
    description := "A description that is long enough."
    tags := []
    privacyStatus := "private"
    publishAt := some ⟨2024, 5, 1, 18, 30, 0⟩
    madeForKids := false
    notifySubscribers := false
    categoryId := some "24"
    defaultLanguage := some "en" }

/-- The upload call the handler issues for `mimeForm`. -/
def mimeCall : UploadCall :=
  { fileName := "short.mp4", mimeType := "video/mp4", payload := mimePayload }

/-- A successful provider outcome for the video id `abc123`. -/
def sampleOutcome : ProviderOutcome :=
  .ok { videoId := "abc123", url := "https://youtube.com/shorts/abc123" }

example : (POST (assembleForm sampleState sampleFile) sampleOutcome).1.status = 201 := by
  decide

example : (POST mimeForm sampleOutcome).2 = some mimeCall := by decide

example :
    formIssues shortFieldsForm = ["Title is required.", "Description is required."] := by
  decide

example : formIssues { video := some (.file sampleFile) } ≠ [] := by decide

/-- `safeParse` succeeds exactly when no field check produced an issue, and on
failure it carries the full issue list. -/
lemma parseForm_spec (form : UploadForm) :
    (formIssues form = [] ∧ ∃ p, parseForm form = .ok p) ∨
    (formIssues form ≠ [] ∧ parseForm form = .error (formIssues form)) := by
  unfold parseForm formIssues
  cases checkTitle form.titleF <;> cases checkDescription form.descriptionF <;>
    cases checkTags form.tagsF <;> cases checkPrivacy form.privacyStatusF <;>
    cases checkPublishAt form.publishAtF <;>
    cases checkStringFlag form.madeForKidsF <;>
    cases checkStringFlag form.notifySubscribersF <;>
    cases checkOptionalString form.categoryIdF <;>
    cases checkOptionalString form.defaultLanguageF <;>
    simp [fieldIssue]

/-- A successful `safeParse` leaves no issues. -/
lemma formIssues_eq_nil_of_ok {form : UploadForm} {p : Payload}
    (h : parseForm form = .ok p) : formIssues form = [] := by
  rcases parseForm_spec form with ⟨hnil, _⟩ | ⟨_, herr⟩
  · exact hnil
  · rw [herr] at h
    exact absurd h (by simp)

/-- With issues present, `safeParse` fails with exactly those issues. -/
lemma parseForm_eq_error {form : UploadForm} (h : formIssues form ≠ []) :
    parseForm form = .error (formIssues form) := by
  rcases parseForm_spec form with ⟨hnil, _⟩ | ⟨_, herr⟩
  · exact absurd hnil h
  · exact herr

/-- When no issues exist, the title check succeeded. -/
lemma checkTitle_ok_of_issues_nil {form : UploadForm}
    (h : formIssues form = []) : ∃ t, checkTitle form.titleF = .ok t := by
  unfold formIssues at h
  rcases List.append_eq_nil.mp h with ⟨h1, -⟩
  rcases List.append_eq_nil.mp h1 with ⟨h2, -⟩
  rcases List.append_eq_nil.mp h2 with ⟨h3, -⟩
  rcases List.append_eq_nil.mp h3 with ⟨h4, -⟩
  rcases List.append_eq_nil.mp h4 with ⟨h5, -⟩
  rcases List.append_eq_nil.mp h5 with ⟨h6, -⟩
  rcases List.append_eq_nil.mp h6 with ⟨h7, -⟩
  rcases List.append_eq_nil.mp h7 with ⟨h8, -⟩
  cases ht : checkTitle form.titleF with
  | ok t => exact ⟨t, rfl⟩
  | error m => rw [ht] at h8; exact absurd h8 (by simp [fieldIssue])

/-- A title accepted by the schema has at least five characters. -/
lemma title_length_of_checkTitle_ok {s t : String}
    (h : checkTitle (some (.str s)) = .ok t) : 5 ≤ s.length := by
  unfold checkTitle at h
  by_cases hl : 5 ≤ s.length
  · exact hl
  · simp [hl] at h

/-- A string of length at least five is not empty. -/
lemma ne_empty_of_five_le {s : String} (h : 5 ≤ s.length) : s ≠ "" := by
  intro hs
  subst hs
  simp at h

/-- The string `"not-a-date"` followed by `T`, any time text, and `":00"` never
parses: its year field is not numeric. -/
lemma jsParseDate_notADate (t : String) :
    jsParseDate ("not-a-date" ++ "T" ++ t ++ ":00") = none := by
  obtain ⟨l⟩ := t
  rfl

/-- The resolver yields no schedule from the date field `"not-a-date"`, whatever
the time field holds. -/
lemma buildPublishDate_notADate (t : String) :
    buildPublishDate "not-a-date" t = none := by
  unfold buildPublishDate safeToISOString
  simp only [if_neg (by decide : ¬("not-a-date" : String) = "")]
  exact jsParseDate_notADate _

/-- Folding `Set` insertion extends the accumulator by a sublist of the input. -/
lemma foldl_dedupStep_decomp (l : List String) :
    ∀ acc, ∃ extra, l.foldl dedupStep acc = acc ++ extra ∧ extra.Sublist l := by
  induction l with
  | nil => exact fun acc => ⟨[], by simp⟩
  | cons x xs ih =>
    intro acc
    by_cases hx : x ∈ acc
    · obtain ⟨extra, he, hs⟩ := ih acc
      refine ⟨extra, ?_, hs.cons x⟩
      simpa [dedupStep, hx] using he
    · obtain ⟨extra, he, hs⟩ := ih (acc ++ [x])
      refine ⟨x :: extra, ?_, hs.cons₂ x⟩
      simpa [dedupStep, hx] using he

/-- Folding `Set` insertion preserves freedom from duplicates. -/
lemma foldl_dedupStep_nodup (l : List String) :
    ∀ acc : List String, acc.Nodup → (l.foldl dedupStep acc).Nodup := by
  induction l with
  | nil => exact fun acc h => h
  | cons x xs ih =>
    intro acc hacc
    by_cases hx : x ∈ acc
    · simpa [dedupStep, hx] using ih acc hacc
    · have : (acc ++ [x]).Nodup := by
        simpa [List.nodup_append] using ⟨hacc, hx⟩
      simpa [dedupStep, hx] using ih (acc ++ [x]) this

/-- `[...new Set(l)]` has no duplicates. -/
lemma dedupFirst_nodup (l : List String) : (dedupFirst l).Nodup :=
  foldl_dedupStep_nodup l [] List.nodup_nil

/-- The ids of a queue built by repeated "Add to Launch Plan" clicks are exactly
the ids generated from the random draws, in order. -/
lemma runQueue_ids_aux (actions : List AddInput) :
    ∀ q : List QueueItem,
      (actions.foldl addToQueue q).map QueueItem.id =
        q.map QueueItem.id ++ actions.map (fun a => randomId a.draw) := by
  induction actions with
  | nil => simp
  | cons a rest ih =>
    intro q
    rw [List.foldl_cons, ih (addToQueue q a)]
    simp [addToQueue]

/-- C2: the server-side validator rejects a title of length 4 and accepts one of
length 5, rejects a description of length 9 and accepts one of length 10, and any
validation failure (once the file pre-checks pass) answers HTTP 400 whose error
string is the space-joined message of all violated rules. -/
theorem validator_boundary_lengths :
    (∀ s : String, s.length = 4 →
      checkTitle (some (.str s)) = .error "Title is required.") ∧
    (∀ s : String, s.length = 5 → checkTitle (some (.str s)) = .ok s) ∧
    (∀ s : String, s.length = 9 →
      checkDescription (some (.str s)) = .error "Description is required.") ∧
    (∀ s : String, s.length = 10 → checkDescription (some (.str s)) = .ok s) ∧
    (∀ (form : UploadForm) (f : FileData) (prov : ProviderOutcome),
      form.video = some (.file f) → f.size ≤ MAX_FILE_SIZE_BYTES →
      formIssues form ≠ [] →
      (POST form prov).1 = ⟨400, { error := some (joinSpace (formIssues form)) }⟩) := by
  refine ⟨?_, ?_, ?_, ?_, ?_⟩
  · intro s h
    simp [checkTitle, h]
  · intro s h
    simp [checkTitle, h]
  · intro s h
    simp [checkDescription, h]
  · intro s h
    simp [checkDescription, h]
  · intro form f prov hv hsz hne
    have herr := parseForm_eq_error hne
    have hns : ¬ f.size > MAX_FILE_SIZE_BYTES := by omega
    simp [POST, hv, hns, runUpload, herr]

/-- Witness for `validator_boundary_lengths` at the boundary strings and at a
concrete form violating both length rules. -/
theorem validator_boundary_lengths_witness :
    checkTitle (some (.str "abcd")) = .error "Title is required." ∧
    checkTitle (some (.str "abcde")) = .ok "abcde" ∧
    checkDescription (some (.str "too short")) = .error "Description is required." ∧
    checkDescription (some (.str "abcdefghij")) = .ok "abcdefghij" ∧
    (POST shortFieldsForm (.err "down")).1 =
      ⟨400, { error := some (joinSpace (formIssues shortFieldsForm)) }⟩ ∧
    joinSpace (formIssues shortFieldsForm) =
      "Title is required. Description is required." :=
  ⟨validator_boundary_lengths.1 "abcd" (by decide),
    validator_boundary_lengths.2.1 "abcde" (by decide),
    validator_boundary_lengths.2.2.1 "too short" (by decide),
    validator_boundary_lengths.2.2.2.1 "abcdefghij" (by decide),
    validator_boundary_lengths.2.2.2.2 shortFieldsForm sampleFile (.err "down")
      rfl (by decide) (by decide),
    by decide⟩

/-- C3: a missing or non-file `video` field, or a file over 1 GiB (in particular
1 GiB + 1 byte), is rejected with HTTP 400 with no regard to the remaining fields
(i.e. before schema validation), while a file of exactly 1 GiB passes the size
check and proceeds to schema validation. -/
theorem file_precheck_gate :
    (∀ (form : UploadForm) (prov : ProviderOutcome), form.video = none →
      (POST form prov).1 = ⟨400, { error := some "Video file is required." }⟩) ∧
    (∀ (form : UploadForm) (prov : ProviderOutcome) (s : String),
      form.video = some (.str s) →
      (POST form prov).1 = ⟨400, { error := some "Video file is required." }⟩) ∧
    (∀ (form : UploadForm) (f : FileData) (prov : ProviderOutcome),
      form.video = some (.file f) → f.size > MAX_FILE_SIZE_BYTES →
      (POST form prov).1 = ⟨400, { error := some "Video file is too large." }⟩) ∧
    (∀ (form : UploadForm) (f : FileData) (prov : ProviderOutcome),
      form.video = some (.file f) → f.size = 1024 * 1024 * 1024 + 1 →
      (POST form prov).1 = ⟨400, { error := some "Video file is too large." }⟩) ∧
    (∀ (form : UploadForm) (f : FileData) (prov : ProviderOutcome),
      form.video = some (.file f) → f.size = 1024 * 1024 * 1024 →
      POST form prov = runUpload form f prov) := by
  refine ⟨?_, ?_, ?_, ?_, ?_⟩
  · intro form prov hv
    simp [POST, hv]
  · intro form prov s hv
    simp [POST, hv]
  · intro form f prov hv hsz
    simp [POST, hv, hsz]
  · intro form f prov hv hsz
    have : f.size > MAX_FILE_SIZE_BYTES := by
      rw [hsz]; unfold MAX_FILE_SIZE_BYTES; omega
    simp [POST, hv, this]
  · intro form f prov hv hsz
    have : ¬ f.size > MAX_FILE_SIZE_BYTES := by
      rw [hsz]; unfold MAX_FILE_SIZE_BYTES; omega
    simp [POST, hv, this]

/-- Witness for `file_precheck_gate` at concrete forms: no file, a string-valued
file field, a 1 GiB + 1 file (with every other field empty, so schema validation
would also fail — yet the size message is the one returned), and a 1 GiB file. -/
theorem file_precheck_gate_witness :
    (POST {} (.err "down")).1 =
      ⟨400, { error := some "Video file is required." }⟩ ∧
    (POST strVideoForm (.err "down")).1 =
      ⟨400, { error := some "Video file is required." }⟩ ∧
    (POST oversizedForm (.err "down")).1 =
      ⟨400, { error := some "Video file is too large." }⟩ ∧
    POST exactLimitForm (.err "down") =
      runUpload exactLimitForm exactLimitFile (.err "down") :=
  ⟨file_precheck_gate.1 {} (.err "down") rfl,
    file_precheck_gate.2.1 strVideoForm (.err "down") "nope" rfl,
    file_precheck_gate.2.2.2.1 oversizedForm oversizedFile (.err "down") rfl rfl,
    file_precheck_gate.2.2.2.2 exactLimitForm exactLimitFile (.err "down") rfl rfl⟩

/-- C4: a present but malformed `publishAt` (such as `"not-a-date"`) is a hard
HTTP 400 validation failure on the server, while the same malformed date on the
client resolves silently to "no schedule" and never blocks the submission from
being sent. -/
theorem publishAt_asymmetry :
    (∀ (form : UploadForm) (f : FileData) (prov : ProviderOutcome),
      form.video = some (.file f) → f.size ≤ MAX_FILE_SIZE_BYTES →
      form.publishAtF = some (.str "not-a-date") →
      (POST form prov).1.status = 400) ∧
    (∀ t, buildPublishDate "not-a-date" t = none) ∧
    (∀ (st : ClientState) (f : FileData), st.file = some f →
      st.scheduleDate = "not-a-date" →
      preSubmit st = .sendRequest f (assembleForm st f)) := by
  refine ⟨?_, buildPublishDate_notADate, ?_⟩
  · intro form f prov hv hsz hpa
    have hmem : "Invalid publish date." ∈ formIssues form := by
      unfold formIssues
      have hck : checkPublishAt form.publishAtF = .error "Invalid publish date." := by
        rw [hpa]; rfl
      simp [hck, fieldIssue]
    have herr := parseForm_eq_error (List.ne_nil_of_mem hmem)
    have hns : ¬ f.size > MAX_FILE_SIZE_BYTES := by omega
    simp [POST, hv, hns, runUpload, herr]
  · intro st f hf hd
    have hb : buildPublishDate st.scheduleDate st.scheduleTime = none := by
      rw [hd]; exact buildPublishDate_notADate _
    simp [preSubmit, hf, hb]

/-- Witness for `publishAt_asymmetry`: the concrete otherwise-valid form with
`publishAt = "not-a-date"` gets HTTP 400, while a client state with the same text
in its date field resolves to no schedule and still sends the request. -/
theorem publishAt_asymmetry_witness :
    (POST notADateForm (.err "down")).1.status = 400 ∧
    buildPublishDate "not-a-date" "18:30" = none ∧
    preSubmit notADateState = .sendRequest sampleFile (assembleForm notADateState sampleFile) :=
  ⟨publishAt_asymmetry.1 notADateForm sampleFile (.err "down") rfl (by decide) rfl,
    publishAt_asymmetry.2.1 "18:30",
    publishAt_asymmetry.2.2 notADateState sampleFile rfl rfl⟩

/-- C10: when the uploaded file's MIME type is the empty string, the handler
passes `"video/mp4"` to the upload submitter; a non-empty MIME type is forwarded
unchanged. -/
theorem mime_type_fallback (form : UploadForm) (f : FileData)
    (prov : ProviderOutcome) (call : UploadCall)
    (hv : form.video = some (.file f)) (hc : (POST form prov).2 = some call) :
    (f.type = "" → call.mimeType = "video/mp4") ∧
    (f.type ≠ "" → call.mimeType = f.type) := by
  simp only [POST, hv] at hc
  by_cases hsz : f.size > MAX_FILE_SIZE_BYTES
  · rw [if_pos hsz] at hc
    simp at hc
  · rw [if_neg hsz] at hc
    unfold runUpload at hc
    cases hp : parseForm form with
    | error msgs =>
      rw [hp] at hc
      simp at hc
    | ok p =>
      rw [hp] at hc
      cases prov with
      | ok r =>
        simp at hc
        constructor <;> intro ht <;> simp [← hc, ht]
      | err m =>
        simp at hc
        constructor <;> intro ht <;> simp [← hc, ht]

/-- Witness for `mime_type_fallback` on the concrete valid form whose file has an
empty MIME type. -/
theorem mime_type_fallback_witness :
    (emptyTypeFile.type = "" → mimeCall.mimeType = "video/mp4") ∧
    (emptyTypeFile.type ≠ "" → mimeCall.mimeType = emptyTypeFile.type) :=
  mime_type_fallback mimeForm emptyTypeFile sampleOutcome mimeCall rfl (by decide)

/-- C5: the client pre-submit checks run in order — no attached file is a local
rejection regardless of the other fields; with a file attached, a resolved
schedule combined with public privacy is a local rejection; only when both checks
pass is the POST issued; and a local rejection only records the message, touching
nothing else and making no network call. -/
theorem presubmit_check_order (st : ClientState) :
    (st.file = none →
      preSubmit st = .localReject "Attach a Short before uploading.") ∧
    (∀ f, st.file = some f →
      (buildPublishDate st.scheduleDate st.scheduleTime).isSome = true →
      st.privacyStatus = "public" →
      preSubmit st = .localReject
        "Scheduled Shorts must use private or unlisted privacy until publish time.") ∧
    (∀ f, st.file = some f →
      ¬((buildPublishDate st.scheduleDate st.scheduleTime).isSome = true ∧
        st.privacyStatus = "public") →
      preSubmit st = .sendRequest f (assembleForm st f)) ∧
    (∀ (prov : ProviderOutcome) (msg : String),
      preSubmit st = .localReject msg →
      handleSubmit st prov = { st with error := some msg, result := none }) := by
  refine ⟨?_, ?_, ?_, ?_⟩
  · intro hf
    simp [preSubmit, hf]
  · intro f hf hsch hpub
    simp [preSubmit, hf, hsch, hpub]
  · intro f hf hcond
    simp only [preSubmit, hf]
    rw [if_neg hcond]
  · intro prov msg h
    simp [handleSubmit, h]

/-- Witness for `presubmit_check_order`: the empty state has no file and is
locally rejected with the file-required message, without a network call. -/
theorem presubmit_check_order_witness :
    preSubmit {} = .localReject "Attach a Short before uploading." ∧
    handleSubmit {} (.err "down") =
      { ({} : ClientState) with
        error := some "Attach a Short before uploading.", result := none } :=
  ⟨(presubmit_check_order {}).1 rfl,
    (presubmit_check_order {}).2.2.2 (.err "down") "Attach a Short before uploading."
      ((presubmit_check_order {}).1 rfl)⟩

/-- C6: the publish-time resolver yields no schedule for an empty date and for
any pair whose constructed date-time text fails to parse; an empty time defaults
to `09:00`; and the two concrete examples resolve to the stated local wall-clock
instants. -/
theorem resolver_behaviour :
    (∀ t, buildPublishDate "" t = none) ∧
    (∀ d t, d ≠ "" →
      jsParseDate (d ++ "T" ++ (if t = "" then "09:00" else t) ++ ":00") = none →
      buildPublishDate d t = none) ∧
    (∀ d, buildPublishDate d "" = buildPublishDate d "09:00") ∧
    buildPublishDate "2024-05-01" "" = some ⟨2024, 5, 1, 9, 0, 0⟩ ∧
    buildPublishDate "2024-05-01" "18:30" = some ⟨2024, 5, 1, 18, 30, 0⟩ := by
  refine ⟨?_, ?_, ?_, by decide, by decide⟩
  · intro t
    simp [buildPublishDate]
  · intro d t hd hparse
    simp only [buildPublishDate, if_neg hd, safeToISOString]
    exact hparse
  · intro d
    by_cases hd : d = ""
    · simp [buildPublishDate, hd]
    · simp [buildPublishDate, hd]

/-- Witness for `resolver_behaviour`: the malformed pair
`("not-a-date", "18:30")` fails to parse and resolves to no schedule. -/
theorem resolver_behaviour_witness :
    buildPublishDate "not-a-date" "18:30" = none :=
  resolver_behaviour.2.1 "not-a-date" "18:30" (by decide) (by decide)

/-- C7 counterexample: not every suggested entry starts with `#`.  For the
description `"#hello"`, the inline extraction sanitizes the token with
`replace(/[^a-z0-9_]/g, "")`, a class that excludes `#` itself, so the first
suggestion is the bare word `hello`. -/
theorem hashtag_prefix_cex :
    generateHashtags "" "#hello" "" = ["hello", "#hello"] ∧
    "hello" ∈ generateHashtags "" "#hello" "" ∧
    startsWithChar "hello" '#' = false := by
  decide

/-- A string built by prefixing `#` starts with `#`. -/
lemma startsWithChar_hash (u : String) : startsWithChar ("#" ++ u) '#' = true := by
  obtain ⟨l⟩ := u
  rfl

/-- C7 (amended): the suggester returns at most 8 entries with no duplicates; the
result is the up-to-3 description-extracted entries (sanitized to
alphanumeric/underscore, which removes their leading `#`) followed by a selection
of the up-to-5 frequency-ranked entries, and every frequency-ranked entry starts
with `#`. -/
theorem hashtag_shape (t d g : String) :
    (generateHashtags t d g).length ≤ 8 ∧
    (generateHashtags t d g).Nodup ∧
    ∃ l₁ l₂, generateHashtags t d g = l₁ ++ l₂ ∧
      l₁.Sublist ((extractHashtags d).take 3) ∧
      l₂.Sublist (rankedTags t d g) ∧
      ∀ x ∈ l₂, startsWithChar x '#' = true := by
  obtain ⟨e₀, he₀, hs₀⟩ := foldl_dedupStep_decomp ((extractHashtags d).take 3) []
  obtain ⟨e₁, he₁, hs₁⟩ :=
    foldl_dedupStep_decomp (rankedTags t d g)
      (((extractHashtags d).take 3).foldl dedupStep [])
  have hdedup :
      dedupFirst ((extractHashtags d).take 3 ++ rankedTags t d g) = e₀ ++ e₁ := by
    rw [dedupFirst, List.foldl_append, he₁, he₀]
    simp
  have hgen : generateHashtags t d g = (e₀ ++ e₁).take 8 := by
    rw [generateHashtags, hdedup]
  have hnodup : (e₀ ++ e₁).Nodup := by
    rw [← hdedup]
    exact dedupFirst_nodup _
  refine ⟨?_, ?_, e₀.take 8, e₁.take (8 - e₀.length), ?_, ?_, ?_, ?_⟩
  · rw [hgen]
    exact List.length_take_le _ _
  · rw [hgen]
    exact hnodup.sublist (List.take_sublist _ _)
  · rw [hgen, List.take_append_eq_append_take]
  · exact (List.take_sublist _ _).trans hs₀
  · exact (List.take_sublist _ _).trans hs₁
  · intro x hx
    have hxB : x ∈ rankedTags t d g :=
      hs₁.subset ((List.take_sublist _ _).subset hx)
    rw [rankedTags] at hxB
    rcases List.mem_map.mp hxB with ⟨p, -, rfl⟩
    exact startsWithChar_hash _

/-- Witness for `hashtag_shape` at the counterexample input. -/
theorem hashtag_shape_witness :
    (generateHashtags "" "#hello" "").length ≤ 8 ∧
    (generateHashtags "" "#hello" "").Nodup ∧
    ∃ l₁ l₂, generateHashtags "" "#hello" "" = l₁ ++ l₂ ∧
      l₁.Sublist ((extractHashtags "#hello").take 3) ∧
      l₂.Sublist (rankedTags "" "#hello" "") ∧
      ∀ x ∈ l₂, startsWithChar x '#' = true :=
  hashtag_shape "" "#hello" ""

/-- C8: a failed upload response surfaces the JSON body's `error` field as the
user-facing message, falls back to the fixed `"Upload failed."` text when the
field is absent, and to the (payload-independent) JSON parser error text when the
body is not JSON; `processResponse` records exactly this message. -/
theorem failure_message_selection :
    (∀ (b : JsonBody) (e : String), b.error = some e →
      uploadFailureMessage (some b) = e) ∧
    (∀ b : JsonBody, b.error = none →
      uploadFailureMessage (some b) = "Upload failed.") ∧
    uploadFailureMessage none = jsonParseErrorMessage ∧
    (∀ (st0 : ClientState) (title : String) (resp : HttpResponse),
      ¬(200 ≤ resp.status ∧ resp.status < 300) →
      (processResponse st0 title resp).error =
        some (uploadFailureMessage (some resp.body))) := by
  refine ⟨?_, ?_, rfl, ?_⟩
  · intro b e h
    simp [uploadFailureMessage, h]
  · intro b h
    simp [uploadFailureMessage, h]
  · intro st0 title resp h
    simp [processResponse, h]

/-- Witness for `failure_message_selection` at concrete bodies and a concrete 500
response. -/
theorem failure_message_selection_witness :
    uploadFailureMessage (some { error := some "Bad request" }) = "Bad request" ∧
    uploadFailureMessage (some { videoId := some "abc123" }) = "Upload failed." ∧
    uploadFailureMessage none = jsonParseErrorMessage ∧
    (processResponse {} "Launch day recap" ⟨500, { error := some "boom" }⟩).error =
      some (uploadFailureMessage (some ({ error := some "boom" } : JsonBody))) :=
  ⟨failure_message_selection.1 _ "Bad request" rfl,
    failure_message_selection.2.1 _ rfl,
    failure_message_selection.2.2.1,
    failure_message_selection.2.2.2 {} "Launch day recap"
      ⟨500, { error := some "boom" }⟩ (by decide)⟩

/-- C9 counterexample: queue ids are not unique for every sequence of
"Add to Launch Plan" actions — two clicks whose `Math.random` draws coincide
(here both doubles have base-36 expansion `0.i`) produce two entries with the
same id. -/
theorem queue_ids_cex :
    ¬ (((runQueue [⟨"First", "", "", [18]⟩, ⟨"Second", "", "", [18]⟩]).map
      QueueItem.id).Nodup) := by
  decide

/-- C9 (amended): each queue entry's id is exactly the id rendered from its
click's random draw, so ids are unique whenever the rendered draws are pairwise
distinct — but not for every sequence, since `Math.random` may repeat. -/
theorem queue_ids_follow_draws (actions : List AddInput) :
    (runQueue actions).map QueueItem.id =
      actions.map (fun a => randomId a.draw) ∧
    ((actions.map (fun a => randomId a.draw)).Nodup →
      ((runQueue actions).map QueueItem.id).Nodup) := by
  unfold runQueue
  have h := runQueue_ids_aux actions []
  simp only [List.map_nil, List.nil_append] at h
  exact ⟨h, fun hn => h ▸ hn⟩

/-- Witness for `queue_ids_follow_draws`: two clicks with distinct draws yield
distinct ids. -/
theorem queue_ids_follow_draws_witness :
    ((runQueue [⟨"First", "", "", [1]⟩, ⟨"Second", "", "", [2]⟩]).map
      QueueItem.id).Nodup :=
  (queue_ids_follow_draws _).2 (by decide)

/-- A submission that passed the local checks reduces to `processResponse` on the
POSTed form. -/
lemma handleSubmit_send {st : ClientState} {f : FileData} {form : UploadForm}
    (prov : ProviderOutcome) (h : preSubmit st = .sendRequest f form) :
    handleSubmit st prov =
      processResponse { st with error := none, result := none } st.title
        (POST form prov).1 := by
  unfold handleSubmit
  rw [h]

/-- A `sendRequest` step can only arise from an attached file and the form
assembled from the current state. -/
lemma preSubmit_send_inv {st : ClientState} {f : FileData} {form : UploadForm}
    (h : preSubmit st = .sendRequest f form) :
    st.file = some f ∧ form = assembleForm st f := by
  unfold preSubmit at h
  cases hfile : st.file with
  | none =>
    rw [hfile] at h
    exact absurd h (by simp)
  | some f0 =>
    rw [hfile] at h
    simp only [] at h
    by_cases hc : (buildPublishDate st.scheduleDate st.scheduleTime).isSome = true ∧
        st.privacyStatus = "public"
    · rw [if_pos hc] at h
      exact absurd h (by simp)
    · rw [if_neg hc] at h
      injection h with h1 h2
      constructor
      · rw [h1]
      · rw [h1] at h2
        exact h2.symm

/-- On a non-2xx response the submission handler only records the failure
message, clears the stale result, and finishes uploading. -/
lemma handleSubmit_fail_state {st : ClientState} {f : FileData}
    {form : UploadForm} (prov : ProviderOutcome)
    (h : preSubmit st = .sendRequest f form)
    (hns : ¬(200 ≤ (POST form prov).1.status ∧ (POST form prov).1.status < 300)) :
    handleSubmit st prov =
      { st with
        error := some (uploadFailureMessage (some (POST form prov).1.body))
        result := none
        uploading := false } := by
  rw [handleSubmit_send prov h]
  unfold processResponse
  rw [if_neg hns]

/-- C1: once the local pre-submit checks pass, the flow ends in exactly one of
two states.  On an HTTP 201 response carrying `{videoId, url}`, every queue entry
whose title equals the submitted title and which has no url yet becomes
`uploaded` with the returned url and every form field returns to its default; on
any other response an error message is recorded, the queue is untouched, and
every form field keeps its value. -/
theorem submit_outcome_dichotomy (st : ClientState) (f : FileData)
    (form : UploadForm) (prov : ProviderOutcome)
    (h : preSubmit st = .sendRequest f form) :
    ((POST form prov).1.status = 201 ∧
      ∃ vid url, (POST form prov).1.body.videoId = some vid ∧
        (POST form prov).1.body.url = some url ∧
        (handleSubmit st prov).queue = st.queue.map (fun item =>
          if item.url = none ∧ item.title = st.title then
            { item with status := QueueStatus.uploaded, url := some url }
          else item) ∧
        (handleSubmit st prov).file = none ∧
        (handleSubmit st prov).title = "" ∧
        (handleSubmit st prov).description = "" ∧
        (handleSubmit st prov).tagsInput = "" ∧
        (handleSubmit st prov).privacyStatus = "private" ∧
        (handleSubmit st prov).scheduleDate = "" ∧
        (handleSubmit st prov).scheduleTime = "" ∧
        (handleSubmit st prov).madeForKids = false ∧
        (handleSubmit st prov).notifySubscribers = false ∧
        (handleSubmit st prov).categoryId = "24" ∧
        (handleSubmit st prov).defaultLanguage = "en") ∨
    ((POST form prov).1.status ≠ 201 ∧
      (∃ msg, (handleSubmit st prov).error = some msg) ∧
      (handleSubmit st prov).queue = st.queue ∧
      (handleSubmit st prov).file = st.file ∧
      (handleSubmit st prov).title = st.title ∧
      (handleSubmit st prov).description = st.description ∧
      (handleSubmit st prov).tagsInput = st.tagsInput ∧
      (handleSubmit st prov).privacyStatus = st.privacyStatus ∧
      (handleSubmit st prov).scheduleDate = st.scheduleDate ∧
      (handleSubmit st prov).scheduleTime = st.scheduleTime ∧
      (handleSubmit st prov).madeForKids = st.madeForKids ∧
      (handleSubmit st prov).notifySubscribers = st.notifySubscribers ∧
      (handleSubmit st prov).categoryId = st.categoryId ∧
      (handleSubmit st prov).defaultLanguage = st.defaultLanguage) := by
  obtain ⟨hfile, hform⟩ := preSubmit_send_inv h
  subst hform
  have hvid : (assembleForm st f).video = some (.file f) := rfl
  by_cases hsz : f.size > MAX_FILE_SIZE_BYTES
  · -- oversized file: HTTP 400
    have hrsp : (POST (assembleForm st f) prov).1 =
        ⟨400, { error := some "Video file is too large." }⟩ := by
      simp [POST, hvid, hsz]
    right
    have hfail := handleSubmit_fail_state prov h
      (by rw [hrsp]; exact (show ¬((200:Nat) ≤ 400 ∧ (400:Nat) < 300) by omega))
    rw [hfail, hrsp]
    exact ⟨show (400:Nat) ≠ 201 by omega, ⟨_, rfl⟩, rfl, rfl, rfl, rfl, rfl, rfl,
      rfl, rfl, rfl, rfl, rfl, rfl⟩
  · cases hp : parseForm (assembleForm st f) with
    | error msgs =>
      -- validation failure: HTTP 400
      have hrsp : (POST (assembleForm st f) prov).1 =
          ⟨400, { error := some (joinSpace msgs) }⟩ := by
        simp [POST, hvid, hsz, runUpload, hp]
      right
      have hfail := handleSubmit_fail_state prov h
        (by rw [hrsp]; exact (show ¬((200:Nat) ≤ 400 ∧ (400:Nat) < 300) by omega))
      rw [hfail, hrsp]
      exact ⟨show (400:Nat) ≠ 201 by omega, ⟨_, rfl⟩, rfl, rfl, rfl, rfl, rfl,
        rfl, rfl, rfl, rfl, rfl, rfl, rfl⟩
    | ok p =>
      cases prov with
      | err m =>
        -- provider failure: HTTP 500
        have hrsp : (POST (assembleForm st f) (.err m)).1 =
            ⟨500, { error := some m }⟩ := by
          simp [POST, hvid, hsz, runUpload, hp]
        right
        have hfail := handleSubmit_fail_state (.err m) h
          (by rw [hrsp]; exact (show ¬((200:Nat) ≤ 500 ∧ (500:Nat) < 300) by omega))
        rw [hfail, hrsp]
        exact ⟨show (500:Nat) ≠ 201 by omega, ⟨_, rfl⟩, rfl, rfl, rfl, rfl, rfl,
          rfl, rfl, rfl, rfl, rfl, rfl, rfl⟩
      | ok r =>
        -- success: HTTP 201
        have hrsp : (POST (assembleForm st f) (.ok r)).1 =
            ⟨201, { videoId := some r.videoId, url := some r.url }⟩ := by
          simp [POST, hvid, hsz, runUpload, hp]
        have hne : st.title ≠ "" := by
          obtain ⟨tt, htt⟩ :=
            checkTitle_ok_of_issues_nil (formIssues_eq_nil_of_ok hp)
          exact ne_empty_of_five_le
            (title_length_of_checkTitle_ok (s := st.title) htt)
        have hstate : handleSubmit st (.ok r) =
            resetForm
              { st with
                error := none
                result := some { videoId := some r.videoId, url := some r.url }
                queue := st.queue.map (fun item =>
                  if item.url = none ∧ st.title ≠ "" ∧ item.title = st.title then
                    { item with
                      status := QueueStatus.uploaded
                      url := some r.url }
                  else item)
                uploading := false } := by
          rw [handleSubmit_send (.ok r) h, hrsp]
          unfold processResponse
          rw [if_pos (show (200:Nat) ≤ 201 ∧ (201:Nat) < 300 by omega)]
        left
        refine ⟨by rw [hrsp], r.videoId, r.url, by rw [hrsp], by rw [hrsp],
          ?_, ?_, ?_, ?_, ?_, ?_, ?_, ?_, ?_, ?_, ?_, ?_⟩
        · rw [hstate]
          show st.queue.map _ = st.queue.map _
          apply List.map_congr_left
          intro item _
          simp [hne]
        all_goals rw [hstate]; rfl

/-- Witness for `submit_outcome_dichotomy`: the concrete ready-to-submit state
with one matching draft queue entry, submitted against a succeeding provider. -/
theorem submit_outcome_dichotomy_witness :
    ((POST (assembleForm sampleState sampleFile) sampleOutcome).1.status = 201 ∧
      ∃ vid url,
        (POST (assembleForm sampleState sampleFile) sampleOutcome).1.body.videoId =
          some vid ∧
        (POST (assembleForm sampleState sampleFile) sampleOutcome).1.body.url =
          some url ∧
        (handleSubmit sampleState sampleOutcome).queue =
          sampleState.queue.map (fun item =>
            if item.url = none ∧ item.title = sampleState.title then
              { item with status := QueueStatus.uploaded, url := some url }
            else item) ∧
        (handleSubmit sampleState sampleOutcome).file = none ∧
        (handleSubmit sampleState sampleOutcome).title = "" ∧
        (handleSubmit sampleState sampleOutcome).description = "" ∧
        (handleSubmit sampleState sampleOutcome).tagsInput = "" ∧
        (handleSubmit sampleState sampleOutcome).privacyStatus = "private" ∧
        (handleSubmit sampleState sampleOutcome).scheduleDate = "" ∧
        (handleSubmit sampleState sampleOutcome).scheduleTime = "" ∧
        (handleSubmit sampleState sampleOutcome).madeForKids = false ∧
        (handleSubmit sampleState sampleOutcome).notifySubscribers = false ∧
        (handleSubmit sampleState sampleOutcome).categoryId = "24" ∧
        (handleSubmit sampleState sampleOutcome).defaultLanguage = "en") ∨
    ((POST (assembleForm sampleState sampleFile) sampleOutcome).1.status ≠ 201 ∧
      (∃ msg, (handleSubmit sampleState sampleOutcome).error = some msg) ∧
      (handleSubmit sampleState sampleOutcome).queue = sampleState.queue ∧
      (handleSubmit sampleState sampleOutcome).file = sampleState.file ∧
      (handleSubmit sampleState sampleOutcome).title = sampleState.title ∧
      (handleSubmit sampleState sampleOutcome).description =
        sampleState.description ∧
      (handleSubmit sampleState sampleOutcome).tagsInput =
        sampleState.tagsInput ∧
      (handleSubmit sampleState sampleOutcome).privacyStatus =
        sampleState.privacyStatus ∧
      (handleSubmit sampleState sampleOutcome).scheduleDate =
        sampleState.scheduleDate ∧
      (handleSubmit sampleState sampleOutcome).scheduleTime =
        sampleState.scheduleTime ∧
      (handleSubmit sampleState sampleOutcome).madeForKids =
        sampleState.madeForKids ∧
      (handleSubmit sampleState sampleOutcome).notifySubscribers =
        sampleState.notifySubscribers ∧
      (handleSubmit sampleState sampleOutcome).categoryId =
        sampleState.categoryId ∧
      (handleSubmit sampleState sampleOutcome).defaultLanguage =
        sampleState.defaultLanguage) :=
  submit_outcome_dichotomy sampleState sampleFile
    (assembleForm sampleState sampleFile) sampleOutcome (by decide)
